import Mathlib

/-!
Shallow embedding of the oauth-token-manager library (package `auth`):
the file-backed datastores (`auth/datastore/file_datastore.py`,
`auth/local_datastore.py`), the key-encoding helper
(`auth/credentials_helpers.py`), the implicit-create retry decorator
(`auth/decorators.py`) with its secret-manager client
(`auth/datastore/secret_manager.py`), and the credential lifecycle manager
(`auth/credentials.py`).

Python values are embedded as the inductive `PyVal`: dictionaries are spines
of `dcons` entries ending in `dnil` (insertion ordered, as CPython dicts are),
lists are spines of `lcons` ending in `lnil`, and Python `None` is
`PyVal.none`.  Python truthiness is `PyVal.truthy`.  Raised exceptions are
values of `PyErr` threaded through `Except`.
-/

inductive PyVal : Type where
  | str (s : String)
  | num (n : Int)
  | pybool (b : Bool)
  | none
  | dnil
  | dcons (k : String) (v : PyVal) (rest : PyVal)
  | lnil
  | lcons (v : PyVal) (rest : PyVal)
  deriving DecidableEq, Repr

/-- Python exception kinds raised by the code paths modelled here.
`keyEncodingError` is the library's `KeyEncodingError` with its message;
modelled from the spec, since `auth/exceptions.py` is not in the sources
(see `encode_key`). -/
inductive PyErr : Type where
  | typeError
  | keyError
  | attributeError
  | notFoundError
  | keyEncodingError (msg : String)
  deriving DecidableEq, Repr

/-- Python truthiness (`bool(x)`): `None`, `''`, `0`, `False`, and the empty
dict and list are falsy; everything else here is truthy. -/
def PyVal.truthy : PyVal → Bool
  | .str s => decide (s ≠ "")
  | .num n => decide (n ≠ 0)
  | .pybool b => b
  | .none => false
  | .dnil => false
  | .dcons _ _ _ => true
  | .lnil => false
  | .lcons _ _ => true

/-- Is this value a Python dict? -/
def PyVal.isDict : PyVal → Bool
  | .dnil => true
  | .dcons _ _ _ => true
  | _ => false

/-- `d.get(key)`: first entry with that key, `None` when absent (or when the
receiver is not a dict spine; callers that could reach that case raise an
`AttributeError` instead, which their embeddings model separately). -/
def PyVal.dget : PyVal → String → PyVal
  | .dcons k v r, key => if k = key then v else r.dget key
  | _, _ => .none

/-- `key in d`: does the dict spine hold an entry for `key`? -/
def PyVal.dmem : PyVal → String → Bool
  | .dcons k _ r, key => k = key || r.dmem key
  | _, _ => false

/-- Replace, in place, the value of every entry whose key is `key`
(CPython keeps the entry's position when assigning an existing key). -/
def PyVal.dreplace : PyVal → String → PyVal → PyVal
  | .dcons k v r, key, nv => .dcons k (if k = key then nv else v) (r.dreplace key nv)
  | x, _, _ => x

/-- Append a fresh entry at the end of the dict spine (CPython appends new
keys in insertion order). -/
def PyVal.dappend : PyVal → String → PyVal → PyVal
  | .dcons k v r, key, nv => .dcons k v (r.dappend key nv)
  | _, key, nv => .dcons key nv .dnil

/-- `d[key] = nv`: replace when the key exists, append otherwise. -/
def PyVal.dset (d : PyVal) (key : String) (nv : PyVal) : PyVal :=
  if d.dmem key then d.dreplace key nv else d.dappend key nv

/-- `d.update(other)` / `d |= other`: fold the entries of `other`, in order,
into `d` (a shallow merge in which `other`'s values win). -/
def PyVal.dupdate (d : PyVal) : PyVal → PyVal
  | .dcons k v r => (d.dset k v).dupdate r
  | _ => d

/-- `d.pop(key)` with the `KeyError` for a missing key already swallowed
(every caller modelled here wraps the pop in `try ... except KeyError`). -/
def PyVal.dremove : PyVal → String → PyVal
  | .dcons k v r, key => if k = key then r else .dcons k v (r.dremove key)
  | x, _ => x

/-- `d[key]` (subscript): the entry's value, `KeyError` when the dict lacks
the key, `TypeError` when the receiver is not subscriptable by a string. -/
def pySubscript : PyVal → String → Except PyErr PyVal
  | .dcons k v r, key => if k = key then .ok v else pySubscript r key
  | .dnil, _ => .error .keyError
  | _, _ => .error .typeError

/-- Python `a or b`: `a` when truthy, otherwise `b`. -/
def pyOr (a b : PyVal) : PyVal :=
  if a.truthy then a else b

/-- Truthiness of the optional sub-key argument (`if key:` in the sources):
an omitted key and an empty-string key are both falsy. -/
def keyTruthy : Option String → Bool
  | some k => decide (k ≠ "")
  | Option.none => false

def spaces (n : Nat) : String :=
  String.mk (List.replicate n ' ')

mutual

/-- `json.dumps(v, indent=2)` for a value sitting at nesting depth `d`:
entries are indented two spaces per level and the closing bracket is aligned
with the opening line, exactly as CPython's `json` module renders with
`indent=2`.  String contents in this development never need escaping. -/
def PyVal.dumpsAt : Nat → PyVal → String
  | _, .str s => "\"" ++ s ++ "\""
  | _, .num n => toString n
  | _, .pybool b => cond b "true" "false"
  | _, .none => "null"
  | _, .dnil => "\x7b\x7d"
  | d, .dcons k v r => "\x7b\n" ++ PyVal.dumpEntry d k v r ++ "\n" ++ spaces (2 * d) ++ "\x7d"
  | _, .lnil => "[]"
  | d, .lcons v r => "[\n" ++ PyVal.dumpItem d v r ++ "\n" ++ spaces (2 * d) ++ "]"
termination_by _ v => 2 * sizeOf v
decreasing_by all_goals simp_wf; omega

/-- One line of a dict body (`k`, `v`), followed by the lines of the
remaining spine `r`, comma separated. -/
def PyVal.dumpEntry (d : Nat) (k : String) (v : PyVal) (r : PyVal) : String :=
  spaces (2 * (d + 1)) ++ "\"" ++ k ++ "\": " ++ PyVal.dumpsAt (d + 1) v ++
    (match r with
      | .dcons k2 v2 r2 => ",\n" ++ PyVal.dumpEntry d k2 v2 r2
      | _ => "")
termination_by 2 * (sizeOf v + sizeOf r) + 1
decreasing_by all_goals simp_wf; omega

/-- One line of a list body (`v`), followed by the lines of the remaining
spine `r`, comma separated. -/
def PyVal.dumpItem (d : Nat) (v : PyVal) (r : PyVal) : String :=
  spaces (2 * (d + 1)) ++ PyVal.dumpsAt (d + 1) v ++
    (match r with
      | .lcons v2 r2 => ",\n" ++ PyVal.dumpItem d v2 r2
      | _ => "")
termination_by 2 * (sizeOf v + sizeOf r) + 1
decreasing_by all_goals simp_wf; omega

end

/-- `json.dumps(datastore, indent=2)` as written by the persist decorators. -/
def json_dumps (v : PyVal) : String :=
  PyVal.dumpsAt 0 v

/-!
## File-backed stores

`FileDatastore` (`auth/datastore/file_datastore.py`) keeps an in-memory dict
`datastore` mapping document ids to documents.  `LocalDatastore`
(`auth/local_datastore.py`) is the older sibling with an identical read path.
The `persist` decorators serialize the whole in-memory dict to the storage
blob after the wrapped mutation, even when it raises (`try ... finally`).
-/

/-- `FileDatastore.get_document(id, key=None)`: take the document at `id`;
when it is truthy, either wrap it under its id (no key), or wrap the value at
`key` under `key` when that value is truthy; in every other case fall
through, returning `None`. -/
def FileDatastore.get_document (ds : PyVal) (id : String) (key : Option String) : PyVal :=
  let parent := ds.dget id
  if parent.truthy then
    if keyTruthy key then
      let value := parent.dget (key.getD "")
      if value.truthy then PyVal.dcons (key.getD "") value PyVal.dnil else PyVal.none
    else
      PyVal.dcons id parent PyVal.dnil
  else
    PyVal.none

/-- `FileDatastore.store_document(id, document)`:
`self.datastore.update({id: document})`. -/
def FileDatastore.store_document (ds : PyVal) (id : String) (document : PyVal) : PyVal :=
  ds.dupdate (PyVal.dcons id document PyVal.dnil)

/-- `FileDatastore.update_document(id, new_data)`: when the document at `id`
is truthy, merge `new_data` into it in place; otherwise store `new_data` as a
new document. -/
def FileDatastore.update_document (ds : PyVal) (id : String) (new_data : PyVal) : PyVal :=
  let document := ds.dget id
  if document.truthy then
    ds.dset id (document.dupdate new_data)
  else
    FileDatastore.store_document ds id new_data

/-- `FileDatastore.delete_document(id, key=None)`: pop `key` from the
document at `id` when a key is given (and the document is truthy), pop the
whole document otherwise; `KeyError` is swallowed. -/
def FileDatastore.delete_document (ds : PyVal) (id : String) (key : Option String) : PyVal :=
  if keyTruthy key then
    let doc := ds.dget id
    if doc.truthy then ds.dset id (doc.dremove (key.getD "")) else ds
  else
    ds.dremove id

/-- The observable state of a `FileDatastore`: the in-memory dict and the
persisted blob's contents. -/
structure FileState where
  mem : PyVal
  blob : String
  deriving DecidableEq, Repr

/-- `store_document` as wrapped by the `@persist` decorator: mutate the
in-memory dict, then write `json.dumps(datastore, indent=2)` to the blob. -/
def FileDatastore.store_document_op (s : FileState) (id : String) (document : PyVal) : FileState :=
  let mem := FileDatastore.store_document s.mem id document
  { mem := mem, blob := json_dumps mem }

/-- `update_document` as wrapped by the `@persist` decorator (its nested call
to the wrapped `store_document` writes the same final dict, so one
write-through with the final dict is observationally the source's
behaviour). -/
def FileDatastore.update_document_op (s : FileState) (id : String) (new_data : PyVal) : FileState :=
  let mem := FileDatastore.update_document s.mem id new_data
  { mem := mem, blob := json_dumps mem }

/-- `delete_document` as it appears in `file_datastore.py`: the `persist`
decorator is NOT applied to it — the source has the bare expression
`persist` on its own line instead of the `@persist` decoration — so the
in-memory dict mutates while the blob keeps its previous contents. -/
def FileDatastore.delete_document_op (s : FileState) (id : String) (key : Option String) : FileState :=
  { s with mem := FileDatastore.delete_document s.mem id key }

/-- `LocalDatastore.get_document(id, key=None)`: same body as
`FileDatastore.get_document`. -/
def LocalDatastore.get_document (ds : PyVal) (id : String) (key : Option String) : PyVal :=
  let parent := ds.dget id
  if parent.truthy then
    if keyTruthy key then
      let value := parent.dget (key.getD "")
      if value.truthy then PyVal.dcons (key.getD "") value PyVal.dnil else PyVal.none
    else
      PyVal.dcons id parent PyVal.dnil
  else
    PyVal.none

/-- `LocalDatastore.store_document(id, document)`:
`self.datastore.update({id: document})`. -/
def LocalDatastore.store_document (ds : PyVal) (id : String) (document : PyVal) : PyVal :=
  ds.dupdate (PyVal.dcons id document PyVal.dnil)

/-- `LocalDatastore.update_document(id, new_data)`: when the document at `id`
is truthy, merge `new_data` into it in place.  The method has no `else`
branch: on a missing (or falsy) document it mutates nothing, despite its own
docstring ("If the document is not already there, it will be created as a
net-new document."). -/
def LocalDatastore.update_document (ds : PyVal) (id : String) (new_data : PyVal) : PyVal :=
  let document := ds.dget id
  if document.truthy then
    ds.dset id (document.dupdate new_data)
  else
    ds

/-!
## Key encoding (`auth/credentials_helpers.py`)

`encode_key` base64-encodes the UTF-8 bytes of the key and strips the
trailing `=` padding.  Its `try` body can only raise `AttributeError` (from
`None.encode`), which the `except KeyEncodingError` clause does not catch.
-/

def b64Alphabet : List Char :=
  "ABCDEFGHIJKLMNOPQRSTUVWXYZabcdefghijklmnopqrstuvwxyz0123456789+/".toList

def b64Char (n : Nat) : Char :=
  b64Alphabet.getD n 'A'

/-- `key.encode('utf-8')`: the UTF-8 byte sequence of the string. -/
def utf8Bytes (s : String) : List Nat :=
  (s.toList.map (fun c =>
    let n := c.toNat
    if n < 128 then [n]
    else if n < 2048 then [192 + n / 64, 128 + n % 64]
    else if n < 65536 then [224 + n / 4096, 128 + n / 64 % 64, 128 + n % 64]
    else [240 + n / 262144, 128 + n / 4096 % 64, 128 + n / 64 % 64, 128 + n % 64])).flatten

/-- `base64.b64encode`: standard alphabet, `=`-padded. -/
def b64EncodeChars : List Nat → List Char
  | [] => []
  | [a] => [b64Char (a / 4), b64Char (a % 4 * 16), '=', '=']
  | [a, b] => [b64Char (a / 4), b64Char (a % 4 * 16 + b / 16), b64Char (b % 16 * 4), '=']
  | a :: b :: c :: rest =>
      b64Char (a / 4) :: b64Char (a % 4 * 16 + b / 16) ::
        b64Char (b % 16 * 4 + c / 64) :: b64Char (c % 64) :: b64EncodeChars rest

/-- `str.rstrip('=')`: drop the trailing `=` characters. -/
def rstripEq (s : String) : String :=
  String.mk ((s.toList.reverse.dropWhile (fun c => c = '=')).reverse)

/-- The value computed by `encode_key` for a non-None key:
`base64.b64encode(key.encode('utf-8')).decode('utf-8').rstrip('=')`. -/
def b64key (key : String) : String :=
  rstripEq (String.mk (b64EncodeChars (utf8Bytes key)))

/-- `encode_key(key)`: for a string key, return the stripped base64 value
when it is truthy, else fall through (Python returns `None`).
Modelled from the spec: the `KeyEncodingError` class of the absent
`auth/exceptions.py` — the spec requires `encode(None)` to fail with a key
encoding error, and the repository's tests assert
`assertRaisesRegex(KeyEncodingError, 'Cannot encode None')`; for the
function's `except KeyEncodingError` clause to catch the `AttributeError`
raised by `None.encode('utf-8')`, `KeyEncodingError` aliases
`AttributeError`, so the clause fires and re-raises
`KeyEncodingError(f'Cannot encode ...')` with the `None` key interpolated. -/
def encode_key : Option String → Except PyErr (Option String)
  | Option.none => .error (.keyEncodingError "Cannot encode None.")
  | some key =>
      let ek := b64key key
      if ek ≠ "" then .ok (some ek) else .ok Option.none

/-!
## Credential lifecycle manager (`auth/credentials.py`)

The OAuth credential object (`google.oauth2.credentials.Credentials`) and the
authorization server are external collaborators; they are modelled by the
record `OAuthCreds` (expiry kept as a UTC timestamp in seconds, the spec's
"expiry is always normalized to UTC before comparison") and by a server
transform `srv` applied when `creds.refresh(Request())` runs.  The datastore
behind the manager is abstracted, as in the source, to what its
`get_document` returns: `gtok` gives the parsed token for a document id, or
`none` when the read comes back absent/falsy.
-/

deriving instance DecidableEq for Except

structure OAuthCreds where
  token : String
  refresh_token : String
  expiry : Int
  deriving DecidableEq, Repr

/-- Modelled from the spec: the external OAuth library's `creds.expired`
check — "Loaded, Fresh (expiry in the future at check time)", otherwise
expired (`google.oauth2.credentials` is an out-of-scope collaborator). -/
def OAuthCreds.expired (c : OAuthCreds) (now : Int) : Bool :=
  decide (c.expiry ≤ now)

/-- Modelled from the spec: `CredentialsError` as raised by
`Credentials.credentials` (`auth/exceptions.py` is not part of the sources;
the call site passes `message='credentials not found', email=self._email`,
and the spec says the error "carries the user identity for diagnostics"). -/
structure CredentialsError where
  message : String
  email : String
  deriving DecidableEq, Repr

/-- The externally visible side effects of reading the `credentials`
property: calls to the authorization server (`creds.refresh`) and writes to
the datastore (`update_document(id=..., new_data=...)`). -/
inductive CredEvent where
  | refresh
  | write (id : String) (tok : OAuthCreds)
  deriving DecidableEq, Repr

structure CredsResult where
  creds : Except CredentialsError OAuthCreds
  events : List CredEvent
  deriving DecidableEq, Repr

/-- `Credentials.store_credentials(creds)`: when `self._email` is truthy,
`update_document(id=encode_key(self._email), new_data=self._to_dict(creds))`
— one datastore write keyed by the encoded email (the `_to_dict`
serialization is carried as the token record itself, since only the write's
occurrence and id are at issue). -/
def Credentials.store_credentials (email : String) (creds : OAuthCreds) : List CredEvent :=
  if email ≠ "" then [CredEvent.write (b64key email) creds] else []

/-- `Credentials._refresh_credentials(creds)`: `creds.refresh(Request())`
(one authorization-server exchange, modelled by `srv`), then
`store_credentials(creds)`. -/
def Credentials.refresh_credentials (srv : OAuthCreds → OAuthCreds) (email : String)
    (creds : OAuthCreds) : OAuthCreds × List CredEvent :=
  let c := srv creds
  (c, CredEvent.refresh :: Credentials.store_credentials email c)

/-- The `Credentials.credentials` property: compute the lookahead expiry
(`now` + 60 minutes), read `token_details` (the datastore document at
`encode_key(self._email)`); when a token is there, refresh it when expired
(setting the lookahead expiry first); when the read is absent, raise
`CredentialsError('credentials not found', email)`. -/
def Credentials.credentials (srv : OAuthCreds → OAuthCreds) (email : String)
    (gtok : String → Option OAuthCreds) (now : Int) : CredsResult :=
  let expiry := now + 3600
  match gtok (b64key email) with
  | some tok =>
      let creds := tok
      if creds.expired now then
        let creds2 := { creds with expiry := expiry }
        let r := Credentials.refresh_credentials srv email creds2
        { creds := .ok r.1, events := r.2 }
      else
        { creds := .ok creds, events := [] }
  | Option.none =>
      { creds := .error { message := "credentials not found", email := email }, events := [] }

/-- The `ProjectCredentials` dataclass.  The constructor stores whatever
values the subscripts produced, so the fields are Python values. -/
structure ProjectCredentials where
  client_id : PyVal
  client_secret : PyVal
  deriving DecidableEq, Repr

/-- The final expression of `Credentials.project_credentials`:
`ProjectCredentials(client_id=secrets['client_id'],
client_secret=secrets['client_secret']) if secrets else None`. -/
def Credentials.mkProjectCreds (secrets : PyVal) : Except PyErr (Option ProjectCredentials) :=
  if secrets.truthy then
    match pySubscript secrets "client_id" with
    | .error e => .error e
    | .ok ci =>
        match pySubscript secrets "client_secret" with
        | .error e => .error e
        | .ok cs => .ok (some { client_id := ci, client_secret := cs })
  else
    .ok Option.none

/-- `Credentials.project_credentials`, over `g` = what
`self.datastore.get_document(id=...)` returns.
First branch (`if secrets := g('client_id')`): truthy result, then
`secrets |= g('client_secret')` — a `TypeError` when the right operand is
`None` or the operands are not both dicts, the in-place union otherwise.
Second branch (`elif client_secret := g('client_secret')`): truthy result,
then `client_secret.get('web') or client_secret.get('installed')` (a `.get`
on a truthy non-dict raises `AttributeError`).  Finally `mkProjectCreds`. -/
def Credentials.project_credentials (g : String → PyVal) : Except PyErr (Option ProjectCredentials) :=
  let s0 := g "client_id"
  if s0.truthy then
    match s0, g "client_secret" with
    | PyVal.dcons k v r, other =>
        if other.isDict then
          Credentials.mkProjectCreds ((PyVal.dcons k v r).dupdate other)
        else
          .error .typeError
    | _, _ => .error .typeError
  else
    let cs := g "client_secret"
    if cs.truthy then
      match cs with
      | PyVal.dcons k v r =>
          Credentials.mkProjectCreds
            (pyOr ((PyVal.dcons k v r).dget "web") ((PyVal.dcons k v r).dget "installed"))
      | _ => .error .attributeError
    else
      Credentials.mkProjectCreds PyVal.none

/-!
## Implicit create-and-retry (`auth/decorators.py`, secret manager)

`implicit_create(creator)` wraps `f` in a `while True` loop: a `NotFound`
from `f` runs `creator` on the first occurrence and retries; on the second
occurrence (`ran_creator` set) the wrapper RETURNS `None`.  Since
`ran_creator` is set before the only path that loops, the loop body runs at
most twice; the unrolled form below is exactly its behaviour.  Exceptions
other than `NotFound` are not caught and propagate.
-/

structure ImplicitCreateRun (σ α : Type) where
  result : Except PyErr (Option α)
  state : σ
  fCalls : Nat
  creatorCalls : Nat

/-- The `implicit_create(creator)` decorator applied to `f`, starting from
state `s`: counts how often `f` and `creator` run, and carries the wrapper's
outcome (a returned value, a returned `None`, or a propagated exception). -/
def implicit_create {σ α : Type} (f : σ → Except PyErr (σ × α)) (creator : σ → σ)
    (s : σ) : ImplicitCreateRun σ α :=
  match f s with
  | .ok sa => { result := .ok (some sa.2), state := sa.1, fCalls := 1, creatorCalls := 0 }
  | .error PyErr.notFoundError =>
      let s1 := creator s
      match f s1 with
      | .ok sa => { result := .ok (some sa.2), state := sa.1, fCalls := 2, creatorCalls := 1 }
      | .error PyErr.notFoundError =>
          { result := .ok Option.none, state := s1, fCalls := 2, creatorCalls := 1 }
      | .error e => { result := .error e, state := s1, fCalls := 2, creatorCalls := 1 }
  | .error e => { result := .error e, state := s, fCalls := 1, creatorCalls := 0 }

/-- The remote state behind `SecretManager`: which secret containers exist,
and the stored versions (container id, payload). -/
structure SecretStore where
  containers : List String
  versions : List (String × String)
  deriving DecidableEq, Repr

/-- `client.add_secret_version`: appends a version to an existing container,
fails with `NotFound` when the container does not exist. -/
def add_secret_version (id : String) (payload : String) (s : SecretStore) :
    Except PyErr (SecretStore × Nat) :=
  if id ∈ s.containers then
    .ok ({ s with versions := s.versions ++ [(id, payload)] }, s.versions.length)
  else
    .error .notFoundError

/-- `SecretManager.create_secret(id)`: creates the (empty) container. -/
def create_secret (id : String) (s : SecretStore) : SecretStore :=
  { s with containers := s.containers ++ [id] }

/-- `SecretManager.store_document(id, document)`, which is decorated with
`@decorators.implicit_create(creator=create_secret)`. -/
def SecretManager.store_document (id : String) (payload : String) (s : SecretStore) :
    ImplicitCreateRun SecretStore Nat :=
  implicit_create (add_secret_version id payload) (create_secret id) s

/-!
## Concrete instances used by witnesses and counterexamples
-/

/-- A one-entry document, Python `{'k': 'v'}`. -/
def c2doc : PyVal := PyVal.dcons "k" (PyVal.str "v") PyVal.dnil

/-- A file store holding one document whose blob is in sync with memory. -/
def c2start : FileState :=
  { mem := PyVal.dcons "a" c2doc PyVal.dnil,
    blob := json_dumps (PyVal.dcons "a" c2doc PyVal.dnil) }

/-- A secret-manager project with no containers. -/
def c3emptyStore : SecretStore := { containers := [], versions := [] }

/-- A stored user token with expiry timestamp 5. -/
def c1tok : OAuthCreds := { token := "t", refresh_token := "r", expiry := 5 }

/-- A datastore read function holding exactly that token under the encoded
email. -/
def c1g : String → Option OAuthCreds := fun id =>
  if id = b64key "u@e.co" then some c1tok else Option.none

/-- A datastore read function with no token for anyone. -/
def c6g : String → Option OAuthCreds := fun _ => Option.none

/-- A store holding only a `client_secret` document whose `installed`
sub-object lacks the `client_secret` field. -/
def c5gBad : String → PyVal := fun id =>
  if id = "client_secret" then
    PyVal.dcons "installed" (PyVal.dcons "client_id" (PyVal.str "A") PyVal.dnil) PyVal.dnil
  else PyVal.none

/-- A store holding the two separate `client_id` / `client_secret`
documents. -/
def c5gPair : String → PyVal := fun id =>
  if id = "client_id" then PyVal.dcons "client_id" (PyVal.str "A") PyVal.dnil
  else if id = "client_secret" then PyVal.dcons "client_secret" (PyVal.str "B") PyVal.dnil
  else PyVal.none

/-- A store holding only a `client_secret` document of the `installed`
export shape, with both fields. -/
def c5gInstalled : String → PyVal := fun id =>
  if id = "client_secret" then
    PyVal.dcons "installed"
      (PyVal.dcons "client_id" (PyVal.str "A")
        (PyVal.dcons "client_secret" (PyVal.str "B") PyVal.dnil))
      PyVal.dnil
  else PyVal.none

/-- A store whose `client_secret` document has both a `web` and an
`installed` sub-object, with different field values. -/
def c5gWeb : String → PyVal := fun id =>
  if id = "client_secret" then
    PyVal.dcons "web"
      (PyVal.dcons "client_id" (PyVal.str "A")
        (PyVal.dcons "client_secret" (PyVal.str "B") PyVal.dnil))
      (PyVal.dcons "installed"
        (PyVal.dcons "client_id" (PyVal.str "C")
          (PyVal.dcons "client_secret" (PyVal.str "D") PyVal.dnil))
        PyVal.dnil)
  else PyVal.none

/-- A store with neither credentials document. -/
def c5gAbsent : String → PyVal := fun _ => PyVal.none

/-- A store whose `client_secret` document has neither a `web` nor an
`installed` sub-object. -/
def c5gOther : String → PyVal := fun id =>
  if id = "client_secret" then PyVal.dcons "other" (PyVal.str "x") PyVal.dnil
  else PyVal.none

/-- A store holding a `client_id` document but no `client_secret` one. -/
def c9g : String → PyVal := fun id =>
  if id = "client_id" then PyVal.dcons "client_id" (PyVal.str "A") PyVal.dnil
  else PyVal.none

/-!
## Supporting lemmas about the dict operations
-/

theorem PyVal.dget_dreplace (d : PyVal) (k : String) (v : PyVal) (h : d.dmem k = true) :
    (d.dreplace k v).dget k = v := by
  induction d with
  | dcons k2 v2 r ihv ihr =>
      simp only [PyVal.dmem, Bool.or_eq_true, decide_eq_true_eq] at h
      simp only [PyVal.dreplace, PyVal.dget]
      by_cases hk : k2 = k
      · simp [hk]
      · simp only [hk, if_false]
        exact ihr (h.resolve_left hk)
  | _ => simp [PyVal.dmem] at h

theorem PyVal.dget_dappend (d : PyVal) (k : String) (v : PyVal) (h : d.dmem k = false) :
    (d.dappend k v).dget k = v := by
  induction d with
  | dcons k2 v2 r ihv ihr =>
      simp only [PyVal.dmem, Bool.or_eq_false_iff, decide_eq_false_iff_not] at h
      simp only [PyVal.dappend, PyVal.dget, h.1, if_false]
      exact ihr h.2
  | _ => simp [PyVal.dappend, PyVal.dget]

/-- After `d[k] = v`, reading `k` gives `v`. -/
theorem PyVal.dget_dset (d : PyVal) (k : String) (v : PyVal) :
    (d.dset k v).dget k = v := by
  unfold PyVal.dset
  by_cases h : d.dmem k = true
  · simp [h, PyVal.dget_dreplace]
  · rw [Bool.not_eq_true] at h
    simp [h, PyVal.dget_dappend]

/-- `store_document` is a single dict assignment on the in-memory map. -/
theorem FileDatastore.store_as_dset (ds : PyVal) (id : String) (D : PyVal) :
    FileDatastore.store_document ds id D = ds.dset id D := by
  simp [FileDatastore.store_document, PyVal.dupdate]

/-!
## Claims
-/

/-- C1: for a Credentials manager bound to a user whose store holds a token,
reading the `credentials` property performs exactly one refresh call against
the authorization server followed by exactly one persistence write keyed by
the encoded user id when the token's expiry is in the past at check time, and
performs zero refresh calls and zero writes when the expiry is in the
future. -/
theorem C1_credentials_refresh_discipline (srv : OAuthCreds → OAuthCreds) (email : String)
    (gtok : String → Option OAuthCreds) (now : Int) (tok : OAuthCreds)
    (hmail : email ≠ "") (hg : gtok (b64key email) = some tok) :
    (tok.expiry < now →
      (Credentials.credentials srv email gtok now).events
        = [CredEvent.refresh,
           CredEvent.write (b64key email) (srv { tok with expiry := now + 3600 })]) ∧
    (now < tok.expiry → (Credentials.credentials srv email gtok now).events = []) := by
  constructor
  · intro h
    simp [Credentials.credentials, hg, OAuthCreds.expired, le_of_lt h,
          Credentials.refresh_credentials, Credentials.store_credentials, hmail]
  · intro h
    simp [Credentials.credentials, hg, OAuthCreds.expired, not_le.mpr h]

/-- Witness for C1: a token with expiry 5 read at time 10 yields one refresh
and one write under the encoded email; read at time 0 it yields no events. -/
theorem C1_credentials_refresh_discipline_witness :
    (Credentials.credentials id "u@e.co" c1g 10).events
      = [CredEvent.refresh,
         CredEvent.write (b64key "u@e.co") (id { c1tok with expiry := (10 : Int) + 3600 })] ∧
    (Credentials.credentials id "u@e.co" c1g 0).events = [] :=
  ⟨(C1_credentials_refresh_discipline id "u@e.co" c1g 10 c1tok (by decide) (by decide)).1
      (by decide),
   (C1_credentials_refresh_discipline id "u@e.co" c1g 0 c1tok (by decide) (by decide)).2
      (by decide)⟩

/-- C2: evaluation of the code at the failing input.  `delete_document` in
`file_datastore.py` is not wrapped by the `persist` decorator (the source has
a bare `persist` expression instead of `@persist`), so deleting the only
document of a store whose blob was in sync leaves the blob holding the old
serialization: after the call the persisted contents no longer equal the
JSON serialization of the in-memory mapping, contradicting the write-through
invariant claimed for every mutating operation. -/
theorem C2_delete_document_skips_write_through :
    c2start.blob = json_dumps c2start.mem ∧
    (FileDatastore.delete_document_op c2start "a" Option.none).mem = PyVal.dnil ∧
    (FileDatastore.delete_document_op c2start "a" Option.none).blob = c2start.blob ∧
    (FileDatastore.delete_document_op c2start "a" Option.none).blob ≠
      json_dumps (FileDatastore.delete_document_op c2start "a" Option.none).mem := by
  refine ⟨rfl, by decide, rfl, ?_⟩
  have hmem : (FileDatastore.delete_document_op c2start "a" Option.none).mem = PyVal.dnil := by
    decide
  rw [hmem]
  show json_dumps (PyVal.dcons "a" c2doc PyVal.dnil) ≠ json_dumps PyVal.dnil
  simp [json_dumps, PyVal.dumpsAt, PyVal.dumpEntry, c2doc, spaces]

/-- C3 counterexample: when the write fails with NotFound, the creation step
runs but leaves the needed container still missing (as when the remote
creation silently failed), and the retried write fails with NotFound again,
the wrapped operation RETURNS `None` — the failure does not propagate to the
caller, refuting the claim as stated. -/
theorem C3_second_notfound_returns_none_counterexample :
    (implicit_create (add_secret_version "token" "payload") (create_secret "other")
        c3emptyStore).result ≠ Except.error PyErr.notFoundError ∧
    (implicit_create (add_secret_version "token" "payload") (create_secret "other")
        c3emptyStore).result = Except.ok Option.none := by
  decide

/-- C3 (amended): if a write wrapped by `implicit_create` fails with a
NotFound condition, the container-creation step runs and the write is retried
exactly once (two calls of the write, one of the creator, never more); if
that single retry fails with the same NotFound condition, the operation
returns an absent result (`None`) to the caller — it neither loops again nor
raises. -/
theorem C3_implicit_create_retry_once {σ α : Type} (f : σ → Except PyErr (σ × α))
    (creator : σ → σ) (s : σ) (h1 : f s = .error PyErr.notFoundError) :
    ((implicit_create f creator s).creatorCalls = 1 ∧
     (implicit_create f creator s).fCalls = 2) ∧
    (f (creator s) = .error PyErr.notFoundError →
      (implicit_create f creator s).result = .ok Option.none) := by
  unfold implicit_create
  rw [h1]
  cases h2 : f (creator s) with
  | ok sa => simp [h2]
  | error e => cases e <;> simp [h2]

/-- Witness for C3: a version write into a missing container, with a creator
that creates the wrong container, runs the creator once, the write twice,
and returns an absent result. -/
theorem C3_implicit_create_retry_once_witness :
    ((implicit_create (add_secret_version "token" "payload") (create_secret "other")
        c3emptyStore).creatorCalls = 1 ∧
     (implicit_create (add_secret_version "token" "payload") (create_secret "other")
        c3emptyStore).fCalls = 2) ∧
    (implicit_create (add_secret_version "token" "payload") (create_secret "other")
        c3emptyStore).result = Except.ok Option.none :=
  let h := C3_implicit_create_retry_once (add_secret_version "token" "payload")
    (create_secret "other") c3emptyStore (by decide)
  ⟨h.1, h.2 (by decide)⟩

/-- C4 counterexample: in the file-backed store, storing the document
`{'k': 'v'}` under id `'a'` and reading it back without a sub-key does NOT
return a document equal to the stored one — the read wraps the document
under its id, refuting the round-trip claim as stated. -/
theorem C4_round_trip_counterexample :
    FileDatastore.get_document
        (FileDatastore.store_document PyVal.dnil "a" c2doc) "a" Option.none
      ≠ c2doc := by
  decide

/-- C4 (amended): in the file-backed store, after `store_document(id, D)`
with a non-empty (truthy) document `D`, `get_document(id)` with no sub-key
returns the single-entry mapping wrapping `D` under `id`; an empty (falsy)
`D` reads back as absent. -/
theorem C4_store_get_wraps_under_id (ds : PyVal) (id : String) (D : PyVal) :
    (D.truthy = true →
      FileDatastore.get_document (FileDatastore.store_document ds id D) id Option.none
        = PyVal.dcons id D PyVal.dnil) ∧
    (D.truthy = false →
      FileDatastore.get_document (FileDatastore.store_document ds id D) id Option.none
        = PyVal.none) := by
  constructor
  · intro h
    simp [FileDatastore.store_as_dset, FileDatastore.get_document, keyTruthy,
          PyVal.dget_dset, h]
  · intro h
    simp [FileDatastore.store_as_dset, FileDatastore.get_document, keyTruthy,
          PyVal.dget_dset, h]

/-- Witness for C4: storing `{'k': 'v'}` under `'a'` reads back as
`{'a': {'k': 'v'}}`, and storing the empty document reads back as absent. -/
theorem C4_store_get_wraps_under_id_witness :
    FileDatastore.get_document (FileDatastore.store_document PyVal.dnil "a" c2doc)
        "a" Option.none = PyVal.dcons "a" c2doc PyVal.dnil ∧
    FileDatastore.get_document (FileDatastore.store_document PyVal.dnil "a" PyVal.dnil)
        "a" Option.none = PyVal.none :=
  ⟨(C4_store_get_wraps_under_id PyVal.dnil "a" c2doc).1 (by decide),
   (C4_store_get_wraps_under_id PyVal.dnil "a" PyVal.dnil).2 (by decide)⟩

/-- C5 counterexample: with no `client_id` document and a `client_secret`
document whose `installed` sub-object carries only `client_id` (so neither
shape yields both fields), resolution raises a `KeyError` instead of
returning absent, refuting the claim's final clause as stated. -/
theorem C5_incomplete_shape_raises_counterexample :
    c5gBad "client_id" = PyVal.none ∧
    Credentials.project_credentials c5gBad = .error PyErr.keyError ∧
    Credentials.project_credentials c5gBad ≠ .ok Option.none := by
  decide

/-- C5 (amended): project credentials resolution is the deterministic
three-step procedure: two separate `client_id` / `client_secret` documents
yield the pair; a lone `client_secret` document with an `installed` (or
`web`, checked first) sub-object holding both fields yields the same pair;
when neither document is present, or only a `client_secret` document without
a `web`/`installed` sub-object is, resolution returns absent without
raising.  (A present shape yielding only one of the two fields instead
raises a lookup error — see the counterexample.) -/
theorem C5_project_credentials_resolution :
    (∀ (g : String → PyVal) (a b : PyVal),
        g "client_id" = PyVal.dcons "client_id" a PyVal.dnil →
        g "client_secret" = PyVal.dcons "client_secret" b PyVal.dnil →
        Credentials.project_credentials g = .ok (some { client_id := a, client_secret := b })) ∧
    (∀ (g : String → PyVal) (a b : PyVal),
        g "client_id" = PyVal.none →
        g "client_secret" = PyVal.dcons "installed"
          (PyVal.dcons "client_id" a (PyVal.dcons "client_secret" b PyVal.dnil)) PyVal.dnil →
        Credentials.project_credentials g = .ok (some { client_id := a, client_secret := b })) ∧
    (∀ (g : String → PyVal) (a b c d : PyVal),
        g "client_id" = PyVal.none →
        g "client_secret" = PyVal.dcons "web"
          (PyVal.dcons "client_id" a (PyVal.dcons "client_secret" b PyVal.dnil))
          (PyVal.dcons "installed"
            (PyVal.dcons "client_id" c (PyVal.dcons "client_secret" d PyVal.dnil)) PyVal.dnil) →
        Credentials.project_credentials g = .ok (some { client_id := a, client_secret := b })) ∧
    (∀ (g : String → PyVal),
        g "client_id" = PyVal.none → g "client_secret" = PyVal.none →
        Credentials.project_credentials g = .ok Option.none) ∧
    (∀ (g : String → PyVal) (d : PyVal),
        g "client_id" = PyVal.none → g "client_secret" = d → d.isDict = true →
        d.dget "web" = PyVal.none → d.dget "installed" = PyVal.none →
        Credentials.project_credentials g = .ok Option.none) := by
  refine ⟨?_, ?_, ?_, ?_, ?_⟩
  · intro g a b h1 h2
    simp [Credentials.project_credentials, h1, h2, PyVal.truthy, PyVal.isDict,
          PyVal.dupdate, PyVal.dset, PyVal.dmem, PyVal.dappend,
          Credentials.mkProjectCreds, pySubscript]
  · intro g a b h1 h2
    simp [Credentials.project_credentials, h1, h2, PyVal.truthy, PyVal.dget, pyOr,
          Credentials.mkProjectCreds, pySubscript]
  · intro g a b c d h1 h2
    simp [Credentials.project_credentials, h1, h2, PyVal.truthy, PyVal.dget, pyOr,
          Credentials.mkProjectCreds, pySubscript]
  · intro g h1 h2
    simp [Credentials.project_credentials, h1, h2, PyVal.truthy,
          Credentials.mkProjectCreds]
  · intro g d h1 h2 h3 h4 h5
    cases d <;> simp_all [Credentials.project_credentials, PyVal.truthy, PyVal.isDict,
      pyOr, Credentials.mkProjectCreds]

/-- Witness for C5: concrete stores exercising all five amended clauses. -/
theorem C5_project_credentials_resolution_witness :
    Credentials.project_credentials c5gPair
      = .ok (some { client_id := PyVal.str "A", client_secret := PyVal.str "B" }) ∧
    Credentials.project_credentials c5gInstalled
      = .ok (some { client_id := PyVal.str "A", client_secret := PyVal.str "B" }) ∧
    Credentials.project_credentials c5gWeb
      = .ok (some { client_id := PyVal.str "A", client_secret := PyVal.str "B" }) ∧
    Credentials.project_credentials c5gAbsent = .ok Option.none ∧
    Credentials.project_credentials c5gOther = .ok Option.none :=
  ⟨C5_project_credentials_resolution.1 c5gPair (PyVal.str "A") (PyVal.str "B")
      (by decide) (by decide),
   C5_project_credentials_resolution.2.1 c5gInstalled (PyVal.str "A") (PyVal.str "B")
      (by decide) (by decide),
   C5_project_credentials_resolution.2.2.1 c5gWeb (PyVal.str "A") (PyVal.str "B")
      (PyVal.str "C") (PyVal.str "D") (by decide) (by decide),
   C5_project_credentials_resolution.2.2.2.1 c5gAbsent (by decide) (by decide),
   C5_project_credentials_resolution.2.2.2.2 c5gOther
      (PyVal.dcons "other" (PyVal.str "x") PyVal.dnil)
      (by decide) (by decide) (by decide) (by decide) (by decide)⟩

/-- C6: when the store returns absent for the user's encoded token id,
reading the `credentials` property raises the credentials-not-found error
carrying that user's email; nothing is recovered locally (no refresh, no
write — the error is the outcome). -/
theorem C6_absent_token_raises_credentials_error (srv : OAuthCreds → OAuthCreds)
    (email : String) (gtok : String → Option OAuthCreds) (now : Int)
    (hg : gtok (b64key email) = Option.none) :
    (Credentials.credentials srv email gtok now).creds
      = .error { message := "credentials not found", email := email } ∧
    (Credentials.credentials srv email gtok now).events = [] := by
  constructor <;> simp [Credentials.credentials, hg]

/-- Witness for C6: an empty store raises the error carrying the email. -/
theorem C6_absent_token_raises_credentials_error_witness :
    (Credentials.credentials id "u@e.co" c6g 0).creds
      = .error { message := "credentials not found", email := "u@e.co" } ∧
    (Credentials.credentials id "u@e.co" c6g 0).events = [] :=
  C6_absent_token_raises_credentials_error id "u@e.co" c6g 0 rfl

/-- C7: evaluation of the code at the failing input.
`LocalDatastore.update_document` on an id not in the store leaves the store
unchanged and the document unreadable, whereas `store_document` with the same
arguments makes it readable — update on a nonexistent id does NOT behave as
store, contradicting the claim, the method's own docstring and the abstract
contract's documentation. -/
theorem C7_local_update_nonexistent_id_is_noop :
    LocalDatastore.update_document PyVal.dnil "a" c2doc = PyVal.dnil ∧
    LocalDatastore.get_document (LocalDatastore.update_document PyVal.dnil "a" c2doc)
      "a" Option.none = PyVal.none ∧
    LocalDatastore.get_document (LocalDatastore.store_document PyVal.dnil "a" c2doc)
      "a" Option.none = PyVal.dcons "a" c2doc PyVal.dnil := by
  decide

/-- C8: the key-encoding transform maps the example email to the base64 of
its UTF-8 bytes with the trailing `=` padding stripped, and for the absent
(`None`) input it raises `KeyEncodingError` (re-raised by the `except`
clause with the message the repository's tests expect). -/
theorem C8_encode_key :
    encode_key (some "buttercup@asyouwish.com")
      = .ok (some "YnV0dGVyY3VwQGFzeW91d2lzaC5jb20") ∧
    encode_key Option.none = .error (PyErr.keyEncodingError "Cannot encode None.") := by
  decide

/-- C9: when the store returns a (truthy) document for id `client_id` but
absent for `client_secret`, reading `project_credentials` raises a
`TypeError` from the in-place union `secrets |= None`, rather than returning
an absent or partial result. -/
theorem C9_missing_client_secret_type_error (g : String → PyVal)
    (h1 : (g "client_id").truthy = true) (h2 : g "client_secret" = PyVal.none) :
    Credentials.project_credentials g = .error PyErr.typeError := by
  unfold Credentials.project_credentials
  cases hs : g "client_id" <;> simp_all [PyVal.truthy, PyVal.isDict]

/-- Witness for C9: a store with only a `client_id` document. -/
theorem C9_missing_client_secret_type_error_witness :
    Credentials.project_credentials c9g = .error PyErr.typeError :=
  C9_missing_client_secret_type_error c9g (by decide) (by decide)

/-- C10: in the file-backed store's read path, absent and falsy are
indistinguishable: a stored empty document reads back as absent, and a
stored falsy value under a sub-key reads back as absent, even though id and
key were explicitly stored. -/
theorem C10_falsy_indistinguishable_from_absent (ds : PyVal) (id key : String)
    (d v : PyVal) :
    (ds.dget id = PyVal.dnil → FileDatastore.get_document ds id Option.none = PyVal.none) ∧
    (ds.dget id = d → d.dget key = v → v.truthy = false → key ≠ "" →
      FileDatastore.get_document ds id (some key) = PyVal.none) := by
  constructor
  · intro h
    simp [FileDatastore.get_document, h, PyVal.truthy, keyTruthy]
  · intro h1 h2 h3 hk
    by_cases hd : d.truthy
    · simp [FileDatastore.get_document, h1, h2, h3, hd, keyTruthy, hk]
    · simp [FileDatastore.get_document, h1, hd]

/-- Witness for C10: a store holding the empty document under `'a'` reads
back absent, and a store holding the empty string under `'a'.'k'` reads the
sub-key back absent. -/
theorem C10_falsy_indistinguishable_from_absent_witness :
    FileDatastore.get_document (PyVal.dcons "a" PyVal.dnil PyVal.dnil) "a" Option.none
      = PyVal.none ∧
    FileDatastore.get_document
        (PyVal.dcons "a" (PyVal.dcons "k" (PyVal.str "") PyVal.dnil) PyVal.dnil)
        "a" (some "k") = PyVal.none :=
  ⟨(C10_falsy_indistinguishable_from_absent (PyVal.dcons "a" PyVal.dnil PyVal.dnil)
      "a" "k" PyVal.dnil PyVal.none).1 (by decide),
   (C10_falsy_indistinguishable_from_absent
      (PyVal.dcons "a" (PyVal.dcons "k" (PyVal.str "") PyVal.dnil) PyVal.dnil)
      "a" "k" (PyVal.dcons "k" (PyVal.str "") PyVal.dnil) (PyVal.str "")).2
     (by decide) (by decide) (by decide) (by decide)⟩
